import Mathlib

/-!
Verification of the Madad MVP backend (`src/main.py`, `src/schemas.py`):
a shallow embedding of the vendor-directory, auth and nearby-search logic,
with theorems checking the specified properties.

Modelling conventions:
* The MongoDB collections are explicit lists of documents; `find_one` is
  `List.find?` (first match in natural order), `insert_one` appends, and
  `update_one` rewrites the first matching document.
* BSON `ObjectId(s)` succeeds exactly on 24-character hex strings; operations
  take the fresh id the store would assign as an explicit argument.
* Python truthiness of an optional string (`if not user.email`) is `truthy`.
* Timestamps are natural numbers (seconds since the epoch).
* The `db is None` / 500 path (store unavailable) is outside the model: every
  operation is given the store it talks to.
-/

/-- Python truthiness of an `Optional[str]`: `None` and `""` are falsy
(a string is falsy exactly when its length is zero). -/
def truthy : Option String → Bool
  | none => false
  | some s => !(s.length == 0)

/-- Python `str.lower()` on the ASCII header text: lower-case each character. -/
def pyLower (s : String) : String := ⟨s.data.map Char.toLower⟩

/-- A hexadecimal digit, upper or lower case. -/
def isHexDigitChar (c : Char) : Bool :=
  c.isDigit || (('a' : Char) ≤ c && c ≤ ('f' : Char)) || (('A' : Char) ≤ c && c ≤ ('F' : Char))

/-- Strings accepted by `bson.ObjectId`: exactly 24 hex characters. -/
def validObjectId (s : String) : Bool :=
  s.length == 24 && s.toList.all isHexDigitChar

/-- Python `int()` on a real value truncates toward zero. -/
def intTrunc (q : ℚ) : ℤ :=
  if 0 ≤ q then ⌊q⌋ else ⌈q⌉

-- ---------- Password/Token service (src/main.py lines 26-65) ----------

/-- Default of the `JWT_SECRET` environment configuration (main.py line 26). -/
def JWT_SECRET : String := "dev_secret_change_me"

/-- Default of `ACCESS_TOKEN_EXPIRE_MINUTES` (main.py line 28): 30 days. -/
def ACCESS_TOKEN_EXPIRE_MINUTES : Nat := 43200

/-- Model of the passlib bcrypt hash (external library): an opaque-looking but
injective tagging of the password; `verify_password` recomputes and compares,
which is the observable contract of hash-then-verify. -/
def hash_password (p : String) : String := "bcrypt$" ++ p

/-- Model of `pwd_context.verify` (main.py lines 56-57). -/
def verify_password (p h : String) : Bool :=
  decide (hash_password p = h)

/-- Decoded JWT claims: subject and expiry (seconds since epoch). -/
structure JwtPayload where
  sub : String
  exp : Nat
  deriving DecidableEq, Repr

/-- A signed token. The HMAC signature is modelled by recording the signing
key; verification checks the key used matches the verifier's key. -/
structure Jwt where
  payload : JwtPayload
  key : String
  deriving DecidableEq, Repr

/-- Embedding of `create_access_token` (main.py lines 60-65): signs
`{sub, exp = now + lifetime}` with `JWT_SECRET`. -/
def create_access_token (now : Nat) (sub : String) : Jwt :=
  { payload := { sub := sub, exp := now + ACCESS_TOKEN_EXPIRE_MINUTES * 60 }
    key := JWT_SECRET }

/-- Model of `jwt.decode` (PyJWT): succeeds when the signature verifies under
`key` and the token is unexpired (PyJWT raises `ExpiredSignatureError`
exactly when `exp ≤ now`); returns `none` on any failure. -/
def jwt_decode (t : Jwt) (key : String) (now : Nat) : Option JwtPayload :=
  if t.key = key ∧ now < t.payload.exp then some t.payload else none

-- ---------- Users (src/schemas.py lines 31-46, main.py lines 119-187) ----------

/-- Registration input (`schemas.User`). Pydantic's `EmailStr` format check and
`min_length=6` on the password are request validation, outside this model. -/
structure User where
  name : Option String := none
  email : Option String := none
  phone : Option String := none
  password : String
  deriving DecidableEq, Repr

/-- A stored document of the `user` collection, as written by `register`. -/
structure UserDoc where
  _id : String
  name : Option String
  email : Option String
  phone : Option String
  hashed_password : String
  created_at : Nat
  updated_at : Nat
  deriving DecidableEq, Repr

/-- Public user view (`schemas.UserOut`). -/
structure UserOut where
  id : String
  name : Option String
  email : Option String
  phone : Option String
  deriving DecidableEq, Repr

/-- Body of `POST /api/auth/login` (`schemas.LoginRequest`). -/
structure LoginRequest where
  email : Option String := none
  phone : Option String := none
  password : String
  deriving DecidableEq, Repr

/-- Response of `register` and `login` (main.py lines 113-116). -/
structure TokenResponse where
  access_token : Jwt
  token_type : String := "bearer"
  user : UserOut
  deriving DecidableEq, Repr

/-- The `Authorization` header, already split at the first space: scheme word
and (parsed) bearer token. `get_current_user` lower-cases the scheme. -/
structure BearerHeader where
  scheme : String
  token : Jwt
  deriving DecidableEq, Repr

/-- Embedding of `get_current_user` (main.py lines 119-131): accept only a
`bearer` scheme, decode and verify the token, reject a falsy or malformed
subject id, then look the subject up; any failure yields `none`. -/
def get_current_user (userStore : List UserDoc) (now : Nat)
    (authorization : Option BearerHeader) : Option UserDoc :=
  match authorization with
  | none => none
  | some h =>
    if pyLower h.scheme = "bearer" then
      match jwt_decode h.token JWT_SECRET now with
      | none => none
      | some payload =>
        if payload.sub.length == 0 then none
        else if validObjectId payload.sub then
          userStore.find? (fun d => decide (d._id = payload.sub))
        else none
    else none

/-- The document `register` inserts: the dumped model minus the raw password,
plus the hash and both timestamps (main.py lines 147-153). -/
def registerDoc (freshId : String) (now : Nat) (user : User) : UserDoc :=
  { _id := freshId, name := user.name, email := user.email, phone := user.phone
    hashed_password := hash_password user.password
    created_at := now, updated_at := now }

/-- Embedding of `register` (main.py lines 134-158). Result status paired with
the resulting `user` collection. -/
def register (store : List UserDoc) (freshId : String) (now : Nat) (user : User) :
    Except Nat TokenResponse × List UserDoc :=
  if !truthy user.email && !truthy user.phone then (.error 400, store)
  else if truthy user.email && (store.find? (fun d => decide (d.email = user.email))).isSome then
    (.error 409, store)
  else if truthy user.phone && (store.find? (fun d => decide (d.phone = user.phone))).isSome then
    (.error 409, store)
  else
    let doc := registerDoc freshId now user
    (.ok { access_token := create_access_token now freshId
           user := { id := freshId, name := user.name, email := user.email, phone := user.phone } },
     store ++ [doc])

/-- The `find_one` query `login` builds (main.py line 168): by email when the
email is truthy, otherwise by phone. -/
def loginLookup (store : List UserDoc) (req : LoginRequest) : Option UserDoc :=
  if truthy req.email then store.find? (fun d => decide (d.email = req.email))
  else store.find? (fun d => decide (d.phone = req.phone))

/-- Embedding of `login` (main.py lines 161-179). -/
def login (store : List UserDoc) (now : Nat) (req : LoginRequest) :
    Except Nat TokenResponse :=
  if !truthy req.email && !truthy req.phone then .error 400
  else
    match loginLookup store req with
    | none => .error 401
    | some doc =>
      if doc.hashed_password.length == 0 then .error 401
      else if !verify_password req.password doc.hashed_password then .error 401
      else .ok { access_token := create_access_token now doc._id
                 user := { id := doc._id, name := doc.name, email := doc.email, phone := doc.phone } }

-- ---------- Vendors (src/schemas.py lines 16-57, main.py lines 191-262) ----------

/-- Service categories (`schemas.ServiceType`). -/
inductive ServiceType
  | tow_truck | mechanic | hotel | medical | car_wash | electrician | plumber
  deriving DecidableEq, Repr

/-- The string a `ServiceType` is stored (and queried) as. -/
def serviceTypeStr : ServiceType → String
  | .tow_truck => "tow_truck"
  | .mechanic => "mechanic"
  | .hotel => "hotel"
  | .medical => "medical"
  | .car_wash => "car_wash"
  | .electrician => "electrician"
  | .plumber => "plumber"

/-- Vendor subscription state (`schemas.Vendor.payment_status`). -/
inductive PaymentStatus
  | unpaid | active | expired
  deriving DecidableEq, Repr

/-- GeoJSON point (`schemas.GeoPoint`), coordinates ordered [lng, lat]. -/
structure GeoPoint where
  type : String := "Point"
  coordinates : List ℚ
  deriving DecidableEq, Repr

/-- Vendor creation input (`schemas.Vendor`), with the pydantic defaults
approved=false, verified=false, payment_status=unpaid. -/
structure Vendor where
  name : String
  phone : String
  service_type : ServiceType
  location : GeoPoint
  address : Option String := none
  description : Option String := none
  approved : Bool := false
  verified : Bool := false
  payment_status : PaymentStatus := .unpaid
  deriving DecidableEq, Repr

/-- A stored document of the `vendor` collection. -/
structure VendorDoc where
  _id : String
  name : String
  phone : String
  service_type : ServiceType
  location : GeoPoint
  address : Option String
  description : Option String
  approved : Bool
  verified : Bool
  payment_status : PaymentStatus
  deriving DecidableEq, Repr

/-- The dumped vendor model keyed by a store-assigned id. -/
def Vendor.toDoc (v : Vendor) (id : String) : VendorDoc :=
  { _id := id, name := v.name, phone := v.phone, service_type := v.service_type
    location := v.location, address := v.address, description := v.description
    approved := v.approved, verified := v.verified, payment_status := v.payment_status }

/-- A vendor document as returned over HTTP: `serialize_doc` replaces the
`_id` object by its string form under the key `id` (main.py lines 41-49). -/
structure SerializedVendor where
  id : String
  name : String
  phone : String
  service_type : ServiceType
  location : GeoPoint
  address : Option String
  description : Option String
  approved : Bool
  verified : Bool
  payment_status : PaymentStatus
  deriving DecidableEq, Repr

/-- Embedding of `serialize_doc` on a vendor document. -/
def serialize_doc (d : VendorDoc) : SerializedVendor :=
  { id := d._id, name := d.name, phone := d.phone, service_type := d.service_type
    location := d.location, address := d.address, description := d.description
    approved := d.approved, verified := d.verified, payment_status := d.payment_status }

/-- Lookup by object id on the vendor collection: the store's find_one with
an `_id` filter. -/
def find_one_vendor (store : List VendorDoc) (vid : String) : Option VendorDoc :=
  store.find? (fun d => decide (d._id = vid))

/-- Modelled from the spec: `create_document` lives in `database.py`, which is
not among the source files. Per §4.2 the store "persists with server-assigned
defaults" and "returns the full stored record including assigned identifier";
so inserting the dumped model with the fresh store-assigned `_id` and returning
that id. -/
def create_document (store : List VendorDoc) (freshId : String) (v : Vendor) :
    String × List VendorDoc :=
  (freshId, store ++ [v.toDoc freshId])

/-- Embedding of `create_vendor` (main.py lines 191-199): auth-gated insert
followed by a re-read of the inserted id (`serialize_doc(None)` is `None`,
hence the `Option` result). -/
def create_vendor (store : List VendorDoc) (freshId : String)
    (current : Option UserDoc) (v : Vendor) :
    Except Nat (Option SerializedVendor) × List VendorDoc :=
  match current with
  | none => (.error 401, store)
  | some _ =>
    let r := create_document store freshId v
    (.ok ((find_one_vendor r.2 r.1).map serialize_doc), r.2)

/-- Exceptions that can arise inside the `try` blocks of the vendor handlers. -/
inductive PyExc
  | invalidId
  | http (status : Nat)
  deriving DecidableEq, Repr

/-- The `try` block of `get_vendor` (main.py lines 206-210): `ObjectId` raises
`InvalidId` on a malformed id, a missing record raises `HTTPException(404)`,
otherwise the serialized document is returned. -/
def get_vendor_try (store : List VendorDoc) (vendor_id : String) :
    Except PyExc SerializedVendor :=
  if validObjectId vendor_id then
    match find_one_vendor store vendor_id with
    | none => .error (.http 404)
    | some doc => .ok (serialize_doc doc)
  else .error .invalidId

/-- Embedding of `get_vendor` (main.py lines 202-212): the bare
`except Exception` arm catches every exception the `try` block raises —
including its own `HTTPException(404)` — and reports 400. -/
def get_vendor (store : List VendorDoc) (vendor_id : String) :
    Except Nat SerializedVendor :=
  match get_vendor_try store vendor_id with
  | .ok d => .ok d
  | .error _ => .error 400

/-- Partial update body (`UpdateVendor`, main.py lines 68-76): the only seven
updatable fields. -/
structure UpdateVendor where
  approved : Option Bool := none
  verified : Option Bool := none
  payment_status : Option PaymentStatus := none
  name : Option String := none
  phone : Option String := none
  address : Option String := none
  description : Option String := none
  deriving DecidableEq, Repr

/-- Whether `payload.model_dump(exclude_none=True)` is the empty dict. -/
def UpdateVendor.isEmptyDump (p : UpdateVendor) : Bool :=
  p.approved.isNone && p.verified.isNone && p.payment_status.isNone &&
  p.name.isNone && p.phone.isNone && p.address.isNone && p.description.isNone

/-- Effect of a `$set` of the non-null dumped fields on one stored document. -/
def applySet (d : VendorDoc) (p : UpdateVendor) : VendorDoc :=
  { d with
    approved := p.approved.getD d.approved
    verified := p.verified.getD d.verified
    payment_status := p.payment_status.getD d.payment_status
    name := p.name.getD d.name
    phone := p.phone.getD d.phone
    address := match p.address with | some a => some a | none => d.address
    description := match p.description with | some a => some a | none => d.description }

/-- Embedding of the store's update_one: applies the `$set` to the first
matching document. -/
def update_one (store : List VendorDoc) (vid : String) (p : UpdateVendor) :
    List VendorDoc :=
  match store with
  | [] => []
  | d :: rest =>
    if d._id = vid then applySet d p :: rest else d :: update_one rest vid p

/-- Responses of the PATCH handler: `{"updated": False}` or the re-read,
serialized document. -/
inductive UpdateResponse
  | notUpdated
  | vendor (doc : Option SerializedVendor)
  deriving DecidableEq, Repr

/-- Embedding of `update_vendor` (main.py lines 215-233): auth gate; empty
dump short-circuits before any store access; malformed id → 400 (the
`except HTTPException: raise` arm lets the explicit 404 through, unlike
`get_vendor`); otherwise `$set` on the first match and a re-read. -/
def update_vendor (store : List VendorDoc) (current : Option UserDoc)
    (vendor_id : String) (payload : UpdateVendor) :
    Except Nat UpdateResponse × List VendorDoc :=
  match current with
  | none => (.error 401, store)
  | some _ =>
    if payload.isEmptyDump then (.ok .notUpdated, store)
    else if validObjectId vendor_id then
      if store.any (fun d => decide (d._id = vendor_id)) then
        let store2 := update_one store vendor_id payload
        (.ok (.vendor ((find_one_vendor store2 vendor_id).map serialize_doc)), store2)
      else (.error 404, store)
    else (.error 400, store)

-- ---------- Nearby search (main.py lines 236-262) ----------

/-- The `$maxDistance` value: `int(radius_km * 1000)` (main.py line 250). -/
def maxDistanceMeters (radius_km : ℚ) : ℤ :=
  intTrunc (radius_km * 1000)

/-- The optional `service_type` clause of the query: added only when the
parameter is truthy (main.py lines 257-258), and then an equality match
against the stored string. -/
def stClause (service_type : Option String) (v : VendorDoc) : Bool :=
  match service_type with
  | none => true
  | some s => if s.length == 0 then true else decide (serviceTypeStr v.service_type = s)

/-- Whether a stored document matches the `nearby_vendors` query: within
`$maxDistance` of the point (the store's geodesic distance in meters is the
parameter `d`), approved, payment-active, and the optional type clause. -/
def nearbyQueryMatches (d : GeoPoint → ℚ × ℚ → ℕ) (lng lat : ℚ) (maxDist : ℤ)
    (service_type : Option String) (v : VendorDoc) : Bool :=
  decide ((d v.location (lng, lat) : ℤ) ≤ maxDist) && v.approved &&
    decide (v.payment_status = .active) && stClause service_type v

/-- Response shape of `GET /api/vendors/nearby`. -/
structure NearbyResponse where
  count : Nat
  vendors : List SerializedVendor
  deriving DecidableEq, Repr

/-- Embedding of `nearby_vendors` (main.py lines 236-262). The store's `$near`
cursor is its documents matching the query in increasing distance order
(native geospatial index ordering), and `.limit(200)` truncates it. -/
def nearby_vendors (d : GeoPoint → ℚ × ℚ → ℕ) (store : List VendorDoc)
    (lng lat radius_km : ℚ) (service_type : Option String) : NearbyResponse :=
  let maxDist := maxDistanceMeters radius_km
  let matched := store.filter (nearbyQueryMatches d lng lat maxDist service_type)
  let sorted := List.insertionSort
    (fun a b => d a.location (lng, lat) ≤ d b.location (lng, lat)) matched
  let results := (sorted.take 200).map serialize_doc
  { count := results.length, vendors := results }

-- ---------- Concrete instances used by the theorems ----------

/-- A well-formed ObjectId string. -/
def demoOid : String := "0123456789abcdef01234567"

/-- A second, distinct well-formed ObjectId string. -/
def demoOid2 : String := "89abcdef0123456789abcdef"

/-- A well-formed ObjectId string matching no stored document. -/
def demoOidAbsent : String := "ffffffffffffffffffffffff"

/-- A stored user, as `register` would have written it. -/
def demoUser : UserDoc :=
  { _id := demoOid, name := some "Admin", email := some "a@x.com", phone := none
    hashed_password := hash_password "secret1", created_at := 0, updated_at := 0 }

/-- Registration input with an email. -/
def demoRegUser : User := { email := some "a@x.com", password := "secret1" }

/-- A second registration input reusing the same email. -/
def demoRegUser2 : User := { email := some "a@x.com", password := "secret2" }

/-- The token response a successful first registration of `demoRegUser` yields. -/
def demoRegToken : TokenResponse :=
  { access_token := create_access_token 0 demoOid
    user := { id := demoOid, name := none, email := some "a@x.com", phone := none } }

/-- A login attempt with the right email and the wrong password. -/
def demoBadLogin : LoginRequest := { email := some "a@x.com", password := "wrongpw" }

/-- Vendor location at (lng 67, lat 24). -/
def demoGeo : GeoPoint := { coordinates := [67, 24] }

/-- Vendor location at (lng 68, lat 25). -/
def demoGeo2 : GeoPoint := { coordinates := [68, 25] }

/-- An approved, payment-active mechanic near the query point. -/
def demoVendor : Vendor :=
  { name := "Quick Tow", phone := "0300", service_type := .mechanic
    location := demoGeo, approved := true, payment_status := .active }

/-- A second approved, payment-active mechanic, farther away. -/
def demoVendor2 : Vendor :=
  { name := "Far Garage", phone := "0301", service_type := .mechanic
    location := demoGeo2, approved := true, payment_status := .active }

/-- A vendor store holding the far vendor before the near one. -/
def demoStore : List VendorDoc := [demoVendor2.toDoc demoOid2, demoVendor.toDoc demoOid]

/-- A concrete store distance (meters): 1 for the near location, 3 otherwise. -/
def demoDist : GeoPoint → ℚ × ℚ → ℕ :=
  fun loc _ => if loc.coordinates = [67, 24] then 1 else 3

/-- The near vendor as the API serializes it. -/
def demoSer : SerializedVendor := serialize_doc (demoVendor.toDoc demoOid)

/-- The stored fields `UpdateVendor` cannot name: id, service category, location. -/
def frameFields (d : VendorDoc) : String × ServiceType × GeoPoint :=
  (d._id, d.service_type, d.location)

-- ---------- Theorems ----------

/-- C5: for every vendor id, a PATCH whose payload dumps to the empty dict
returns `{updated: false}` and leaves the stored state unchanged — no store
write happens. -/
theorem update_empty_payload_noop (store : List VendorDoc) (u : UserDoc)
    (vendor_id : String) (payload : UpdateVendor)
    (h : payload.isEmptyDump = true) :
    update_vendor store (some u) vendor_id payload = (.ok .notUpdated, store) := by
  simp [update_vendor, h]

/-- Witness for `update_empty_payload_noop` at the all-null payload. -/
theorem update_empty_payload_noop_witness :
    update_vendor demoStore (some demoUser) demoOid {} = (.ok .notUpdated, demoStore) :=
  update_empty_payload_noop demoStore demoUser demoOid {} rfl

/-- Applying a `$set` of the seven updatable fields never changes id, service
category or location of a document. -/
theorem update_one_frame (store : List VendorDoc) (vid : String) (p : UpdateVendor) :
    (update_one store vid p).map frameFields = store.map frameFields := by
  induction store with
  | nil => rfl
  | cons dd rest ih =>
    rw [update_one]
    by_cases h : dd._id = vid
    · rw [if_pos h]
      simp [frameFields, applySet]
    · rw [if_neg h]
      simp [ih]

/-- C9: PATCH can only touch the seven `UpdateVendor` fields; on every request,
every other stored field — id, service_type, location — of every document in
the store is unchanged. -/
theorem update_touches_only_update_fields (store : List VendorDoc)
    (current : Option UserDoc) (vendor_id : String) (payload : UpdateVendor) :
    ((update_vendor store current vendor_id payload).2).map frameFields
      = store.map frameFields := by
  cases current with
  | none => rfl
  | some _ =>
    rw [update_vendor]
    by_cases h1 : payload.isEmptyDump = true
    · rw [if_pos h1]
    · rw [if_neg h1]
      by_cases h2 : validObjectId vendor_id = true
      · rw [if_pos h2]
        by_cases h3 : (store.any fun d => decide (d._id = vendor_id)) = true
        · rw [if_pos h3]
          exact update_one_frame store vendor_id payload
        · rw [if_neg h3]
      · rw [if_neg h2]

/-- C2 (code behavior at the failing input): the `try` block of `get_vendor`
does raise 404 for a well-formed id with no matching record, but the handler's
bare `except Exception` converts it to 400; malformed ids give 400 and a
present id returns the stored vendor. -/
theorem get_vendor_404_swallowed :
    get_vendor_try demoStore demoOidAbsent = .error (.http 404) ∧
    get_vendor demoStore demoOidAbsent = .error 400 ∧
    get_vendor demoStore "not-an-objectid" = .error 400 ∧
    get_vendor demoStore demoOid = .ok (serialize_doc (demoVendor.toDoc demoOid)) := by
  refine ⟨rfl, rfl, rfl, rfl⟩

/-- C10 fails as stated: at `radius_km = -1` (strictly below 0.001) the
computed `$maxDistance` is `-1000`, not `0`. -/
theorem radius_truncation_negative :
    maxDistanceMeters (-1) = -1000 ∧ ((-1 : ℚ) < 1/1000) ∧ (-1000 : ℤ) ≠ 0 := by
  refine ⟨?_, by norm_num, by decide⟩
  rw [maxDistanceMeters, intTrunc, if_neg (by norm_num),
    show ((-1 : ℚ) * 1000) = ((-1000 : ℤ) : ℚ) by norm_num, Int.ceil_intCast]

/-- C10 (amended): for nonnegative `radius_km` the `$maxDistance` is the
floor of `radius_km * 1000` — fractional meters round down — and any
nonnegative radius strictly below 0.001 km yields 0 meters. -/
theorem radius_truncation_nonneg (radius_km : ℚ) (h : 0 ≤ radius_km) :
    (maxDistanceMeters radius_km : ℚ) ≤ radius_km * 1000 ∧
    radius_km * 1000 - 1 < (maxDistanceMeters radius_km : ℚ) ∧
    (radius_km < 1/1000 → maxDistanceMeters radius_km = 0) := by
  have hm : maxDistanceMeters radius_km = ⌊radius_km * 1000⌋ := by
    rw [maxDistanceMeters, intTrunc, if_pos (by positivity)]
  refine ⟨?_, ?_, ?_⟩
  · rw [hm]; exact Int.floor_le _
  · rw [hm]; exact Int.sub_one_lt_floor _
  · intro hlt
    rw [hm, Int.floor_eq_zero_iff]
    constructor
    · positivity
    · nlinarith

/-- Witness for `radius_truncation_nonneg` at half a meter. -/
theorem radius_truncation_nonneg_witness :
    (maxDistanceMeters (1/2000) : ℚ) ≤ (1/2000 : ℚ) * 1000 ∧
    maxDistanceMeters (1/2000) = 0 :=
  ⟨(radius_truncation_nonneg (1/2000) (by norm_num)).1,
   (radius_truncation_nonneg (1/2000) (by norm_num)).2.2 (by norm_num)⟩

/-- C6: a login whose lookup matches no user, or whose matched user's password
does not verify, fails 401 Unauthorized — and login never answers 404, so the
two failure causes are indistinguishable to the caller. -/
theorem login_uniform_unauthorized (store : List UserDoc) (now : Nat) (req : LoginRequest) :
    login store now req ≠ .error 404 ∧
    ((truthy req.email || truthy req.phone) = true →
      (loginLookup store req = none ∨
        ∃ dd, loginLookup store req = some dd ∧
          verify_password req.password dd.hashed_password = false) →
      login store now req = .error 401) := by
  constructor
  · rw [login]
    split
    · simp
    · split
      · simp
      · split
        · simp
        · split
          all_goals simp
  · intro hgate hfail
    have hcond : (!truthy req.email && !truthy req.phone) = false := by
      cases he : truthy req.email <;> cases hp : truthy req.phone <;> simp_all
    rw [login, if_neg (by simp [hcond])]
    rcases hfail with hnone | ⟨dd, hdd, hver⟩
    · rw [hnone]
    · rw [hdd]
      by_cases h1 : (dd.hashed_password.length == 0) = true
      · simp [h1]
      · simp [h1, hver]

/-- Witness for `login_uniform_unauthorized`: right email, wrong password. -/
theorem login_uniform_unauthorized_witness :
    login [demoUser] 0 demoBadLogin = .error 401 :=
  (login_uniform_unauthorized [demoUser] 0 demoBadLogin).2 (by decide)
    (Or.inr ⟨demoUser, by decide, by decide⟩)

/-- Register fails 400 when neither contact field is truthy. -/
theorem register_missing_contact (store : List UserDoc) (freshId : String) (now : Nat)
    (u : User) (he : truthy u.email = false) (hp : truthy u.phone = false) :
    (register store freshId now u).1 = .error 400 := by
  simp [register, he, hp]

/-- Register fails 409 when a truthy contact field is already stored. -/
theorem register_conflict (store : List UserDoc) (freshId : String) (now : Nat) (u : User)
    (h : (truthy u.email = true ∧
            (store.find? (fun d => decide (d.email = u.email))).isSome = true) ∨
         (truthy u.phone = true ∧
            (store.find? (fun d => decide (d.phone = u.phone))).isSome = true)) :
    (register store freshId now u).1 = .error 409 := by
  rcases h with ⟨he, hfind⟩ | ⟨hp, hfind⟩
  · rw [register, if_neg (by simp [he]), if_pos (by simp [he, hfind])]
  · rw [register, if_neg (by simp [hp])]
    by_cases hc : (truthy u.email &&
        (store.find? (fun d => decide (d.email = u.email))).isSome) = true
    · rw [if_pos hc]
    · rw [if_neg hc, if_pos (by simp [hp, hfind])]

/-- A successful register appends exactly the dumped document. -/
theorem register_ok_store (store : List UserDoc) (freshId : String) (now : Nat) (u : User)
    (t : TokenResponse) (h : (register store freshId now u).1 = .ok t) :
    (register store freshId now u).2 = store ++ [registerDoc freshId now u] := by
  rw [register] at h ⊢
  split_ifs at h ⊢
  all_goals simp_all

/-- After one successful register, a second register reusing the same truthy
email (or phone) hits the uniqueness check and fails 409. -/
theorem register_duplicate_conflict (store : List UserDoc) (id1 id2 : String)
    (now1 now2 : Nat) (u1 u2 : User) (t : TokenResponse)
    (hok : (register store id1 now1 u1).1 = .ok t)
    (hdup : (truthy u2.email = true ∧ u2.email = u1.email) ∨
            (truthy u2.phone = true ∧ u2.phone = u1.phone)) :
    (register (register store id1 now1 u1).2 id2 now2 u2).1 = .error 409 := by
  rw [register_ok_store store id1 now1 u1 t hok]
  apply register_conflict
  rcases hdup with ⟨ht, heq⟩ | ⟨ht, heq⟩
  · refine Or.inl ⟨ht, ?_⟩
    rw [List.find?_isSome]
    refine ⟨registerDoc id1 now1 u1, by simp, ?_⟩
    simp [registerDoc, heq]
  · refine Or.inr ⟨ht, ?_⟩
    rw [List.find?_isSome]
    refine ⟨registerDoc id1 now1 u1, by simp, ?_⟩
    simp [registerDoc, heq]

/-- C7: register demands email or phone (400 otherwise), answers 409 when a
supplied truthy email or phone is already taken, and in particular the second
of two registrations sharing an email (or phone) fails 409. -/
theorem register_error_contract :
    (∀ (store : List UserDoc) (freshId : String) (now : Nat) (u : User),
      truthy u.email = false → truthy u.phone = false →
      (register store freshId now u).1 = .error 400) ∧
    (∀ (store : List UserDoc) (freshId : String) (now : Nat) (u : User),
      ((truthy u.email = true ∧
          (store.find? (fun d => decide (d.email = u.email))).isSome = true) ∨
       (truthy u.phone = true ∧
          (store.find? (fun d => decide (d.phone = u.phone))).isSome = true)) →
      (register store freshId now u).1 = .error 409) ∧
    (∀ (store : List UserDoc) (id1 id2 : String) (now1 now2 : Nat) (u1 u2 : User)
        (t : TokenResponse),
      (register store id1 now1 u1).1 = .ok t →
      ((truthy u2.email = true ∧ u2.email = u1.email) ∨
       (truthy u2.phone = true ∧ u2.phone = u1.phone)) →
      (register (register store id1 now1 u1).2 id2 now2 u2).1 = .error 409) :=
  ⟨register_missing_contact, register_conflict, register_duplicate_conflict⟩

/-- Witness for `register_error_contract`: no contact → 400; taken email →
409; second registration with the same email → 409. -/
theorem register_error_contract_witness :
    (register [] demoOid 0 { password := "secret1" }).1 = .error 400 ∧
    (register [demoUser] demoOid2 0 demoRegUser).1 = .error 409 ∧
    (register (register [] demoOid 0 demoRegUser).2 demoOid2 5 demoRegUser2).1
      = .error 409 :=
  ⟨register_error_contract.1 [] demoOid 0 { password := "secret1" } rfl rfl,
   register_error_contract.2.1 [demoUser] demoOid2 0 demoRegUser
     (Or.inl ⟨by decide, by decide⟩),
   register_error_contract.2.2 [] demoOid demoOid2 0 5 demoRegUser demoRegUser2
     demoRegToken rfl (Or.inl ⟨by decide, by decide⟩)⟩

/-- A valid ObjectId string has length 24, hence is not falsy. -/
theorem validObjectId_length (s : String) (h : validObjectId s = true) :
    (s.length == 0) = false := by
  rw [validObjectId, Bool.and_eq_true] at h
  have h24 : s.length = 24 := by simpa using h.1
  simp [h24]

/-- C3: a token issued for a subject resolves back to that subject id at any
time strictly before its expiry (the subject being a stored user), and from
the expiry on `get_current_user` answers none. -/
theorem token_roundtrip_expiry (store : List UserDoc) (sub : String) (t0 t : Nat)
    (hvalid : validObjectId sub = true)
    (hfound : (store.find? (fun d => decide (d._id = sub))).isSome = true) :
    (t < t0 + ACCESS_TOKEN_EXPIRE_MINUTES * 60 →
      (get_current_user store t
        (some { scheme := "Bearer", token := create_access_token t0 sub })).map UserDoc._id
        = some sub) ∧
    (t0 + ACCESS_TOKEN_EXPIRE_MINUTES * 60 ≤ t →
      get_current_user store t
        (some { scheme := "Bearer", token := create_access_token t0 sub }) = none) := by
  have hlen := validObjectId_length sub hvalid
  constructor
  · intro hlt
    rw [get_current_user, if_pos (show pyLower "Bearer" = "bearer" by decide),
      jwt_decode, create_access_token, if_pos ⟨rfl, hlt⟩]
    simp only [hlen, Bool.false_eq_true, if_false, hvalid, if_true]
    obtain ⟨d, hd⟩ := Option.isSome_iff_exists.mp hfound
    have hp := List.find?_some hd
    have hid : d._id = sub := by simpa using hp
    rw [hd]
    simp [hid]
  · intro hle
    rw [get_current_user, if_pos (show pyLower "Bearer" = "bearer" by decide),
      jwt_decode, create_access_token,
      if_neg (by intro hc; exact absurd hc.2 (Nat.not_lt.mpr hle))]

/-- Witness for `token_roundtrip_expiry`: issue at time 0, resolve at 10. -/
theorem token_roundtrip_expiry_witness :
    (get_current_user [demoUser] 10
      (some { scheme := "Bearer", token := create_access_token 0 demoOid })).map UserDoc._id
      = some demoOid :=
  (token_roundtrip_expiry [demoUser] demoOid 0 10 (by decide) (by decide)).1 (by decide)

/-- Inserting a document under a fresh id makes it what `find_one` returns. -/
theorem find_one_vendor_insert (store : List VendorDoc) (freshId : String) (v : Vendor)
    (hfresh : store.find? (fun d => decide (d._id = freshId)) = none) :
    find_one_vendor (store ++ [v.toDoc freshId]) freshId = some (v.toDoc freshId) := by
  rw [find_one_vendor, List.find?_append, hfresh]
  simp [Vendor.toDoc, List.find?]

/-- C4: creating a vendor and fetching it under the assigned id returns the
input plus the assigned identifier, with the pydantic server defaults
approved=false, verified=false, payment_status=unpaid when not overridden. -/
theorem create_then_get_roundtrip (store : List VendorDoc) (freshId : String)
    (u : UserDoc) (v : Vendor)
    (hvalid : validObjectId freshId = true)
    (hfresh : store.find? (fun d => decide (d._id = freshId)) = none) :
    (create_vendor store freshId (some u) v).1
      = .ok (some (serialize_doc (v.toDoc freshId))) ∧
    get_vendor (create_vendor store freshId (some u) v).2 freshId
      = .ok (serialize_doc (v.toDoc freshId)) ∧
    serialize_doc (v.toDoc freshId) =
      { id := freshId, name := v.name, phone := v.phone, service_type := v.service_type
        location := v.location, address := v.address, description := v.description
        approved := v.approved, verified := v.verified
        payment_status := v.payment_status } ∧
    ({ name := v.name, phone := v.phone, service_type := v.service_type
       location := v.location } : Vendor).approved = false ∧
    ({ name := v.name, phone := v.phone, service_type := v.service_type
       location := v.location } : Vendor).verified = false ∧
    ({ name := v.name, phone := v.phone, service_type := v.service_type
       location := v.location } : Vendor).payment_status = .unpaid := by
  have hins := find_one_vendor_insert store freshId v hfresh
  have hstore2 : (create_vendor store freshId (some u) v).2
      = store ++ [v.toDoc freshId] := rfl
  refine ⟨?_, ?_, rfl, rfl, rfl, rfl⟩
  · show Except.ok ((find_one_vendor (store ++ [v.toDoc freshId]) freshId).map serialize_doc)
      = Except.ok (some (serialize_doc (v.toDoc freshId)))
    rw [hins]
    rfl
  · rw [hstore2, get_vendor, get_vendor_try, if_pos hvalid, hins]

/-- Witness for `create_then_get_roundtrip` on the empty store. -/
theorem create_then_get_roundtrip_witness :
    (create_vendor [] demoOid (some demoUser) demoVendor).1
      = .ok (some (serialize_doc (demoVendor.toDoc demoOid))) ∧
    get_vendor (create_vendor [] demoOid (some demoUser) demoVendor).2 demoOid
      = .ok (serialize_doc (demoVendor.toDoc demoOid)) :=
  ⟨(create_then_get_roundtrip [] demoOid demoUser demoVendor (by decide) rfl).1,
   (create_then_get_roundtrip [] demoOid demoUser demoVendor (by decide) rfl).2.1⟩

/-- C1: every vendor the nearby search returns is approved and payment-active,
a truthy service_type filter is honoured, and at most 200 results come back. -/
theorem nearby_result_invariant (d : GeoPoint → ℚ × ℚ → ℕ) (store : List VendorDoc)
    (lng lat radius_km : ℚ) (service_type : Option String) :
    (∀ v ∈ (nearby_vendors d store lng lat radius_km service_type).vendors,
      v.approved = true ∧ v.payment_status = .active ∧
      ∀ s, service_type = some s → s ≠ "" → serviceTypeStr v.service_type = s) ∧
    (nearby_vendors d store lng lat radius_km service_type).vendors.length ≤ 200 := by
  constructor
  · intro v hv
    have hv' : v ∈ List.map serialize_doc (List.take 200 (List.insertionSort
        (fun a b => d a.location (lng, lat) ≤ d b.location (lng, lat))
        (store.filter
          (nearbyQueryMatches d lng lat (maxDistanceMeters radius_km) service_type)))) := hv
    rw [List.mem_map] at hv'
    obtain ⟨doc, hdoc, rfl⟩ := hv'
    have hmem1 : doc ∈ List.insertionSort
        (fun a b => d a.location (lng, lat) ≤ d b.location (lng, lat))
        (store.filter
          (nearbyQueryMatches d lng lat (maxDistanceMeters radius_km) service_type)) :=
      List.take_subset 200 _ hdoc
    rw [List.mem_insertionSort] at hmem1
    have hq := (List.mem_filter.mp hmem1).2
    rw [nearbyQueryMatches, Bool.and_eq_true, Bool.and_eq_true, Bool.and_eq_true] at hq
    obtain ⟨⟨⟨_, happr⟩, hactive⟩, hst⟩ := hq
    refine ⟨happr, of_decide_eq_true hactive, ?_⟩
    intro s hs hne
    subst hs
    rw [stClause] at hst
    have hlen : (s.length == 0) = false := by
      cases hb : (s.length == 0)
      · rfl
      · exfalso
        apply hne
        apply String.ext
        have h0 : s.length = 0 := by simpa using hb
        exact List.length_eq_zero.mp h0
    rw [if_neg (by simp [hlen])] at hst
    exact of_decide_eq_true hst
  · show (List.map serialize_doc (List.take 200 (List.insertionSort
        (fun a b => d a.location (lng, lat) ≤ d b.location (lng, lat))
        (store.filter
          (nearbyQueryMatches d lng lat (maxDistanceMeters radius_km) service_type))))).length
      ≤ 200
    rw [List.length_map, List.length_take]
    exact min_le_left _ _

/-- Evaluation of the nearby search on the demo store: both active mechanics
match within 5 km and come back nearest first. -/
theorem nearby_demo_eval :
    (nearby_vendors demoDist demoStore 67 24 5 (some "mechanic")).vendors
      = [serialize_doc (demoVendor.toDoc demoOid),
         serialize_doc (demoVendor2.toDoc demoOid2)] := by
  have hmax : maxDistanceMeters 5 = 5000 := by
    rw [maxDistanceMeters, intTrunc, if_pos (by norm_num),
      show ((5 : ℚ) * 1000) = ((5000 : ℤ) : ℚ) by norm_num, Int.floor_intCast]
  rw [nearby_vendors, hmax]
  decide

/-- Witness for `nearby_result_invariant` at the demo search. -/
theorem nearby_result_invariant_witness :
    demoSer.approved = true ∧ demoSer.payment_status = PaymentStatus.active ∧
    serviceTypeStr demoSer.service_type = "mechanic" := by
  have hm : demoSer
      ∈ (nearby_vendors demoDist demoStore 67 24 5 (some "mechanic")).vendors := by
    rw [nearby_demo_eval]
    exact List.mem_cons_self _ _
  obtain ⟨h1, h2, h3⟩ :=
    (nearby_result_invariant demoDist demoStore 67 24 5 (some "mechanic")).1 demoSer hm
  exact ⟨h1, h2, h3 "mechanic" rfl (by decide)⟩

/-- C8: the nearby results are sorted by non-decreasing distance from the
query point. -/
theorem nearby_sorted_by_distance (d : GeoPoint → ℚ × ℚ → ℕ) (store : List VendorDoc)
    (lng lat radius_km : ℚ) (service_type : Option String) :
    List.Sorted (· ≤ ·)
      ((nearby_vendors d store lng lat radius_km service_type).vendors.map
        (fun v => d v.location (lng, lat))) := by
  haveI hr : IsTotal VendorDoc
      (fun a b => d a.location (lng, lat) ≤ d b.location (lng, lat)) :=
    ⟨fun a b => Nat.le_total _ _⟩
  haveI htr : IsTrans VendorDoc
      (fun a b => d a.location (lng, lat) ≤ d b.location (lng, lat)) :=
    ⟨fun _ _ _ hab hbc => Nat.le_trans hab hbc⟩
  have hs := List.sorted_insertionSort
    (fun a b => d a.location (lng, lat) ≤ d b.location (lng, lat))
    (store.filter (nearbyQueryMatches d lng lat (maxDistanceMeters radius_km) service_type))
  have htake := hs.sublist (List.take_sublist 200 _)
  show List.Sorted (· ≤ ·)
    ((List.map serialize_doc (List.take 200 (List.insertionSort
      (fun a b => d a.location (lng, lat) ≤ d b.location (lng, lat))
      (store.filter
        (nearbyQueryMatches d lng lat (maxDistanceMeters radius_km) service_type))))).map
      (fun v => d v.location (lng, lat)))
  rw [List.map_map]
  exact List.pairwise_map.mpr htake
